import Mathlib

/-!
Shallow embedding of the device-connectivity core of a homebridge plugin for
WLED controllers: the per-device session (wledDevice), its color math and
mutation protocol, the discovery service's dedup/merge logic, and the
verification queue.  JavaScript numbers are modelled over `ℚ` (the arithmetic
involved is exact at every comparison and rounding boundary relevant here);
`Math.round`, `Math.floor` and the `%` remainder are modelled explicitly.
-/

namespace WLED

/-- JavaScript `Math.round`: round half toward positive infinity. -/
def jsRound (x : ℚ) : ℤ := Int.floor (x + 1/2)

/-- JavaScript `Math.floor`. -/
def jsFloor (x : ℚ) : ℤ := Int.floor x

/-- Truncation toward zero, as used by the JavaScript `%` operator. -/
def jsTrunc (x : ℚ) : ℤ := if 0 ≤ x then Int.floor x else Int.ceil x

/-- JavaScript `%` on numbers: remainder with the sign of the dividend,
`x % y = x - y * trunc(x / y)`. -/
def jsRem (x y : ℚ) : ℚ := x - y * (jsTrunc (x / y))

/-- JavaScript `%` on integer-valued numbers (used on the sector index
`i % 6` in `hsvToRgb`); `Int.div` truncates toward zero like JS. -/
def jsRemInt (i n : ℤ) : ℤ := i - n * (Int.tdiv i n)

/-- Result of `rgbToHsv` (wledDevice.ts lines 363-398): integer hue in
degrees, saturation and value in integer percent. -/
structure HSV where
  h : ℤ
  s : ℤ
  v : ℤ
  deriving DecidableEq, Repr

/-- Result of `hsvToRgb` (wledDevice.ts lines 403-456): integer channels. -/
structure RGB where
  r : ℤ
  g : ℤ
  b : ℤ
  deriving DecidableEq, Repr

/-- The hue sector computation of `rgbToHsv` before scaling: the if/else-if
chain on `delta`/`max` (wledDevice.ts lines 377-385). -/
def hueSector (r' g' b' mx d : ℚ) : ℚ :=
  if d = 0 then 0
  else if mx = r' then jsRem ((g' - b') / d) 6
  else if mx = g' then (b' - r') / d + 2
  else (r' - g') / d + 4

/-- The wrap step `if (h < 0) h += 360` of `rgbToHsv` (lines 388-390). -/
def hueAdjust (h1 : ℤ) : ℤ := if h1 < 0 then h1 + 360 else h1

/-- `rgbToHsv` from wledDevice.ts lines 363-398: channels normalized to 0-1,
max/min/delta hexagonal-sector formula, hue rounded after scaling by 60 and
wrapped, saturation and value rounded to percent. -/
def rgbToHsv (r g b : ℚ) : HSV :=
  let r' := r / 255
  let g' := g / 255
  let b' := b / 255
  let mx := max r' (max g' b')
  let mn := min r' (min g' b')
  let d := mx - mn
  let s : ℚ := if mx = 0 then 0 else d / mx
  ⟨hueAdjust (jsRound (hueSector r' g' b' mx d * 60)),
   jsRound (s * 100),
   jsRound (mx * 100)⟩

/-- The sector switch of `hsvToRgb` (wledDevice.ts lines 417-448): the
pre-rounding channel triple; `r`, `g`, `b` start at 0, so a sector index
outside 0-5 leaves them 0. -/
def hsvSectorRgb (m : ℤ) (v' p q t : ℚ) : ℚ × ℚ × ℚ :=
  if m = 0 then (v', t, p)
  else if m = 1 then (q, v', p)
  else if m = 2 then (p, v', t)
  else if m = 3 then (p, q, v')
  else if m = 4 then (t, p, v')
  else if m = 5 then (v', p, q)
  else (0, 0, 0)

/-- `hsvToRgb` from wledDevice.ts lines 403-456: inputs scaled to 0-1,
sector index `i = floor(h*6)`, fractional part and the `p`/`q`/`t`
intermediates, switch on `i % 6`, channels scaled back and rounded. -/
def hsvToRgb (h s v : ℚ) : RGB :=
  let h' := h / 360
  let s' := s / 100
  let v' := v / 100
  let i : ℤ := jsFloor (h' * 6)
  let f : ℚ := h' * 6 - (i : ℚ)
  let p := v' * (1 - s')
  let q := v' * (1 - f * s')
  let t := v' * (1 - (1 - f) * s')
  let rgb := hsvSectorRgb (jsRemInt i 6) v' p q t
  ⟨jsRound (rgb.1 * 255), jsRound (rgb.2.1 * 255), jsRound (rgb.2.2 * 255)⟩

/-- The brightness round trip `rgbToHsv (hsvToRgb h s 100)` at full value. -/
def roundTripHS (h s : ℚ) : HSV :=
  let c := hsvToRgb h s 100
  rgbToHsv (c.r : ℚ) (c.g : ℚ) (c.b : ℚ)

/-- Public-to-native brightness conversion as used by `setBrightness`
(wledDevice.ts line 584): `Math.max(0, Math.min(255, Math.round((brightness
/ 100) * 255)))`. -/
def briToNative (brightness : ℚ) : ℤ :=
  max 0 (min 255 (jsRound (brightness / 100 * 255)))

/-- Native-to-public brightness conversion as used when mirroring device
state in `updateStateFromData` (wledDevice.ts line 279):
`Math.round((data.bri / 255) * 100)`. -/
def briToPublic (bri : ℚ) : ℤ := jsRound (bri / 255 * 100)

/-- One element of `WLEDState.segmentState` (wledDevice.ts lines 5-20).  The
interface is recursive, but the code never populates a nested
`segmentState`, so segment entries are modelled with the scalar fields
only. -/
structure SegState where
  on' : Bool
  brightness : ℚ
  colorMode : String
  colorR : ℚ
  colorG : ℚ
  colorB : ℚ
  hue : ℤ
  saturation : ℤ
  colorTemperature : ℚ
  effect : ℚ
  presetId : ℚ
  deriving DecidableEq, Repr

/-- The session's local state mirror `WLEDState` (wledDevice.ts lines
5-20). -/
structure WState where
  on' : Bool
  brightness : ℚ
  colorMode : String
  colorR : ℚ
  colorG : ℚ
  colorB : ℚ
  hue : ℤ
  saturation : ℤ
  colorTemperature : ℚ
  effect : ℚ
  presetId : ℚ
  segmentState : Option (List SegState)
  deriving DecidableEq, Repr

/-- The initial mirror value (wledDevice.ts lines 51-61). -/
def initialState : WState :=
  { on' := false, brightness := 0, colorMode := "rgb",
    colorR := 0, colorG := 0, colorB := 0, hue := 0, saturation := 0,
    colorTemperature := 140, effect := 0, presetId := 0,
    segmentState := none }

/-- The minimal JSON patch each mutator posts (one constructor per payload
shape appearing in wledDevice.ts): `{on}`, `{seg:{id,on}}`, `{bri}`,
`{seg:{id,bri}}`, `{seg:{id,col:[[r,g,b]]}}`, `{seg:{id,fx}}`, `{ps}`. -/
inductive Patch where
  | power (on' : Bool)
  | segPower (id : ℕ) (on' : Bool)
  | bri (bri : ℤ)
  | segBri (id : ℕ) (bri : ℤ)
  | segCol (id : ℕ) (r g b : ℚ)
  | segFx (id : ℕ) (effectIndex : ℚ)
  | ps (presetId : ℚ)
  deriving DecidableEq, Repr

/-- Behaviour of the network during one mutation call: whether the
WebSocket `send` throws, whether an HTTP POST rejects, whether the HTTP GET
of the pull path rejects, and the mirror value that parsing a successful
pull response would produce (the parsed result of `updateStateFromData`,
supplied by the environment). -/
structure Env where
  wsSendFails : Bool
  httpPostFails : Bool
  httpGetFails : Bool
  fetchedState : WState
  deriving DecidableEq, Repr

/-- A device session as the mutators see it: the `useWebSockets` option,
the `isConnected` flag (set on channel open/close events), whether
`this.webSocket` exists with `readyState === OPEN`, the state mirror, the
registered state listeners (identified by number), and `activePresetId`. -/
structure Session where
  useWebSockets : Bool
  isConnected : Bool
  wsOpen : Bool
  state : WState
  stateListeners : List ℕ
  activePresetId : ℚ
  deriving DecidableEq, Repr

/-- What `sendWebSocketUpdate` (wledDevice.ts lines 505-520) did: whether a
push send was attempted, the fallback HTTP POST it issued (fire-and-forget
with `.catch` that only logs), and whether that fallback POST rejected.
The function itself never throws. -/
structure SendOutcome where
  wsAttempted : Bool
  httpFallback : Option Patch
  httpFallbackFailed : Bool
  deriving DecidableEq, Repr

/-- `sendWebSocketUpdate` (wledDevice.ts lines 505-520): if the socket is
open, try to send; on success return; on a throw fall through to an HTTP
POST of the same payload whose rejection is caught and logged.  If the
socket is not open, POST directly (same fire-and-forget). -/
def sendWebSocketUpdate (wsOpen : Bool) (env : Env) (payload : Patch) : SendOutcome :=
  if wsOpen then
    if env.wsSendFails then ⟨true, some payload, env.httpPostFails⟩
    else ⟨true, none, false⟩
  else ⟨false, some payload, env.httpPostFails⟩

/-- Observable outcome of one mutator call. -/
structure MutOut where
  wsAttempted : Bool
  httpFallback : Option Patch
  httpFallbackFailed : Bool
  httpDirect : Option Patch
  failure : Bool
  notifications : List (ℕ × WState)
  deriving DecidableEq, Repr

/-- The transport template shared verbatim by every mutator (e.g.
`setPower`, wledDevice.ts lines 525-544): if WebSockets are enabled and
connected call `sendWebSocketUpdate` (which never throws); otherwise
`await axios.post` — a rejection there propagates out of the call before
the mirror update.  Then apply the optimistic local update and notify all
listeners synchronously with the (live) mirror. -/
def runMutation (sess : Session) (env : Env) (payload : Patch)
    (applyUpd : WState → WState) : MutOut × Session :=
  if sess.useWebSockets && sess.isConnected then
    let snd := sendWebSocketUpdate sess.wsOpen env payload
    let st' := applyUpd sess.state
    (⟨snd.wsAttempted, snd.httpFallback, snd.httpFallbackFailed, none, false,
      sess.stateListeners.map (fun l => (l, st'))⟩,
     { sess with state := st' })
  else
    if env.httpPostFails then
      (⟨false, none, false, some payload, true, []⟩, sess)
    else
      let st' := applyUpd sess.state
      (⟨false, none, false, some payload, false,
        sess.stateListeners.map (fun l => (l, st'))⟩,
       { sess with state := st' })

/-- Update one segment mirror entry if it exists, as the segment mutators
do after `if (this.state.segmentState && this.state.segmentState[i])`. -/
def updateSegAt (segs : Option (List SegState)) (i : ℕ)
    (f : SegState → SegState) : Option (List SegState) :=
  match segs with
  | none => none
  | some l =>
    match l.get? i with
    | some s => some (l.set i (f s))
    | none => some l

/-- `setPower` (wledDevice.ts lines 525-544). -/
def setPower (sess : Session) (env : Env) (on' : Bool) : MutOut × Session :=
  runMutation sess env (.power on') (fun st => { st with on' := on' })

/-- `setSegmentPower` (wledDevice.ts lines 549-576). -/
def setSegmentPower (sess : Session) (env : Env) (i : ℕ) (on' : Bool) :
    MutOut × Session :=
  runMutation sess env (.segPower i on')
    (fun st =>
      { st with segmentState :=
          updateSegAt st.segmentState i (fun s => { s with on' := on' }) })

/-- `setBrightness` (wledDevice.ts lines 581-602): converts 0-100 to the
clamped native 0-255 for the payload; mirrors the raw public value. -/
def setBrightness (sess : Session) (env : Env) (brightness : ℚ) :
    MutOut × Session :=
  runMutation sess env (.bri (briToNative brightness))
    (fun st => { st with brightness := brightness })

/-- `setSegmentBrightness` (wledDevice.ts lines 607-636). -/
def setSegmentBrightness (sess : Session) (env : Env) (i : ℕ)
    (brightness : ℚ) : MutOut × Session :=
  runMutation sess env (.segBri i (briToNative brightness))
    (fun st =>
      { st with segmentState :=
          updateSegAt st.segmentState i (fun s => { s with brightness := brightness }) })

/-- `setColor` (wledDevice.ts lines 641-670): patches segment 0, mirrors
the RGB triple and recomputes hue/saturation from it. -/
def setColor (sess : Session) (env : Env) (r g b : ℚ) : MutOut × Session :=
  runMutation sess env (.segCol 0 r g b)
    (fun st =>
      { st with
        colorR := r, colorG := g, colorB := b,
        hue := (rgbToHsv r g b).h, saturation := (rgbToHsv r g b).s,
        colorMode := "rgb" })

/-- `setSegmentColor` (wledDevice.ts lines 675-706). -/
def setSegmentColor (sess : Session) (env : Env) (i : ℕ) (r g b : ℚ) :
    MutOut × Session :=
  runMutation sess env (.segCol i r g b)
    (fun st =>
      { st with segmentState :=
          updateSegAt st.segmentState i (fun s =>
              { s with
                colorR := r, colorG := g, colorB := b,
                hue := (rgbToHsv r g b).h, saturation := (rgbToHsv r g b).s,
                colorMode := "rgb" }) })

/-- `setEffect` (wledDevice.ts lines 795-818). -/
def setEffect (sess : Session) (env : Env) (effectIndex : ℚ) :
    MutOut × Session :=
  runMutation sess env (.segFx 0 effectIndex)
    (fun st => { st with effect := effectIndex })

/-- `setSegmentEffect` (wledDevice.ts lines 823-846): notifies but updates
no local field. -/
def setSegmentEffect (sess : Session) (env : Env) (i : ℕ)
    (effectIndex : ℚ) : MutOut × Session :=
  runMutation sess env (.segFx i effectIndex) (fun st => st)

/-- `activatePreset` (wledDevice.ts lines 940-967): same transport
template, then sets `activePresetId` and the mirrored preset id, notifies,
and — only when not push-connected — awaits one full pull fetch whose
rejection propagates to the caller and whose success replaces the mirror
(with a second notification round from `updateStateFromData`). -/
def activatePreset (sess : Session) (env : Env) (presetId : ℚ) :
    MutOut × Session :=
  if sess.useWebSockets && sess.isConnected then
    let snd := sendWebSocketUpdate sess.wsOpen env (.ps presetId)
    let st' := { sess.state with presetId := presetId }
    (⟨snd.wsAttempted, snd.httpFallback, snd.httpFallbackFailed, none, false,
      sess.stateListeners.map (fun l => (l, st'))⟩,
     { sess with state := st', activePresetId := presetId })
  else
    if env.httpPostFails then
      (⟨false, none, false, some (.ps presetId), true, []⟩, sess)
    else
      let st' := { sess.state with presetId := presetId }
      let notif1 := sess.stateListeners.map (fun l => (l, st'))
      if env.httpGetFails then
        (⟨false, none, false, some (.ps presetId), true, notif1⟩,
         { sess with state := st', activePresetId := presetId })
      else
        (⟨false, none, false, some (.ps presetId), false,
          notif1 ++ sess.stateListeners.map (fun l => (l, env.fetchedState))⟩,
         { sess with state := env.fetchedState, activePresetId := presetId })

/-- `maxReconnectAttempts` (wledDevice.ts line 49). -/
def maxReconnectAttempts : ℕ := 10

/-- `reconnectInterval` in milliseconds (wledDevice.ts line 50). -/
def reconnectInterval : ℕ := 5000

/-- Reconnection-relevant session state: the attempt counter (line 48) and
whether `startPolling` has installed the periodic pull-fetch timer
(lines 207-224). -/
structure ReconnSt where
  reconnectAttempts : ℕ
  pollingActive : Bool
  deriving DecidableEq, Repr

/-- `scheduleReconnect` (wledDevice.ts lines 158-179): below the ceiling it
increments the counter and schedules a retry after
`reconnectInterval * min(attempts, 5)` ms (returned as `some delay`);
at the ceiling it schedules nothing and falls back to polling
(`startPolling`). -/
def scheduleReconnect (st : ReconnSt) : Option ℕ × ReconnSt :=
  if st.reconnectAttempts < maxReconnectAttempts then
    (some (reconnectInterval * min (st.reconnectAttempts + 1) 5),
     { st with reconnectAttempts := st.reconnectAttempts + 1 })
  else
    (none, { st with pollingActive := true })

/-- In a session whose push channel never opens, every connection attempt
ends in a close event whose handler calls `scheduleReconnect`
(lines 125-131); this is one such failure step. -/
def failStep (st : ReconnSt) : ReconnSt := (scheduleReconnect st).2

/-- Reconnection state at construction: counter 0, no polling. -/
def initialReconn : ReconnSt := ⟨0, false⟩

/-- JavaScript `s.endsWith(sfx)`, modelled over the character list. -/
def jsEndsWith (s sfx : String) : Bool := List.isSuffixOf sfx.data s.data

/-- Enrichment info of a discovered device (discoveryService.ts lines
14-18). -/
structure DeviceInfo where
  version : String
  macAddress : String
  ledCount : ℕ
  deriving DecidableEq, Repr

/-- `DiscoveredWLEDDevice` (discoveryService.ts lines 8-19). -/
structure DiscoveredWLEDDevice where
  name : String
  host : String
  port : ℕ
  id : String
  discoveryMethod : String
  info : Option DeviceInfo
  deriving DecidableEq, Repr

/-- The `Map` of discovered devices, as an insertion-ordered association
list. -/
abbrev DeviceMap := List (String × DiscoveredWLEDDevice)

/-- `Map.get`. -/
def mapGet (m : DeviceMap) (k : String) : Option DiscoveredWLEDDevice :=
  (m.find? (fun p => p.1 == k)).map (fun p => p.2)

/-- `Map.set`: replaces in place if the key exists, else appends. -/
def mapSet (m : DeviceMap) (k : String) (v : DiscoveredWLEDDevice) :
    DeviceMap :=
  if m.any (fun p => p.1 == k) then
    m.map (fun p => if p.1 == k then (k, v) else p)
  else m ++ [(k, v)]

/-- `addDiscoveredDevice` (discoveryService.ts lines 294-338): keyed by
id; prefers literal addresses over `.local` hostnames; backfills missing
info on identical hosts; keeps the existing entry on a same-id
different-host conflict. -/
def addDiscoveredDevice (m : DeviceMap) (device : DiscoveredWLEDDevice) :
    DeviceMap :=
  match mapGet m device.id with
  | some existing =>
    if !(jsEndsWith existing.host ".local") && jsEndsWith device.host ".local" then
      m
    else if jsEndsWith existing.host ".local" && !(jsEndsWith device.host ".local") then
      mapSet m device.id device
    else if existing.host == device.host then
      if device.info.isSome && existing.info.isNone then mapSet m device.id device
      else m
    else m
  | none => mapSet m device.id device

/-- An entry of the verification queue (discoveryService.ts line 32). -/
structure CheckItem where
  host : String
  port : ℕ
  method : String
  deriving DecidableEq, Repr

/-- Queue state: the pending items and the `isProcessingQueue` flag
(discoveryService.ts lines 32-33). -/
structure CheckQueueSt where
  checkQueue : List CheckItem
  isProcessingQueue : Bool
  deriving DecidableEq, Repr

/-- `queueDeviceCheck` (discoveryService.ts lines 148-163): no-op when an
identical (host, port) pair is already queued; otherwise appends, and
invokes `processCheckQueue` only when no drain loop is active.  The second
component records whether `processCheckQueue` was invoked. -/
def queueDeviceCheck (st : CheckQueueSt) (host : String) (port : ℕ)
    (method : String) : CheckQueueSt × Bool :=
  if st.checkQueue.any (fun item => item.host == host && item.port == port) then
    (st, false)
  else
    ({ st with checkQueue := st.checkQueue ++ [⟨host, port, method⟩] },
     !st.isProcessingQueue)

/-- The `while` drain of `processCheckQueue` (lines 118-139): shift one
item at a time and probe it (`checkIfWLED`), until the queue is empty.
Returns the probes issued, in order. -/
def drainLoop : List CheckItem → List CheckItem
  | [] => []
  | item :: rest => item :: drainLoop rest

/-- `processCheckQueue` (discoveryService.ts lines 110-143): returns
immediately when a drain is already active or the queue is empty;
otherwise sets the flag, drains, and clears the flag.  Second component:
the probes issued. -/
def processCheckQueue (st : CheckQueueSt) : CheckQueueSt × List CheckItem :=
  if st.isProcessingQueue || st.checkQueue.isEmpty then (st, [])
  else (⟨[], false⟩, drainLoop st.checkQueue)

/-- A JSON value, as the preset map is handled (`any`-typed in the
source). -/
inductive JVal where
  | nul
  | bool (b : Bool)
  | num (q : ℚ)
  | str (s : String)
  | arr (xs : List JVal)
  | obj (fields : List (String × JVal))

/-- JavaScript `typeof data === 'object' && data !== null` (objects and
arrays pass, `null` is excluded). -/
def isObjectNonNull : JVal → Bool
  | .obj _ => true
  | .arr _ => true
  | _ => false

/-- JavaScript property lookup on an object's field list. -/
def lookupField (fields : List (String × JVal)) (k : String) : Option JVal :=
  (fields.find? (fun p => p.1 == k)).map (fun p => p.2)

/-- Name extraction of `getPresets` (wledDevice.ts lines 874-881):
`data.n` if it is a string, else `data.name` if it is a string, else
`Preset <id>`. -/
def extractPresetName (id : String) (v : JVal) : String :=
  match v with
  | .obj fields =>
    match lookupField fields "n" with
    | some (.str s) => s
    | _ =>
      match lookupField fields "name" with
      | some (.str s) => s
      | _ => "Preset " ++ id
  | _ => "Preset " ++ id

/-- The pure transformation of `getPresets` (wledDevice.ts lines 855-898)
from the raw fetched preset map to the cached registry: deletes the
`_name` and `_type` metadata entries, keeps every remaining entry whose
value is a non-null object, pairing the id with the extracted display name
and the raw payload. -/
def getPresetsFromRaw (raw : List (String × JVal)) :
    List (String × String × JVal) :=
  (raw.filter (fun p => !(p.1 == "_name") && !(p.1 == "_type"))).filterMap
    (fun p => if isObjectNonNull p.2 then
        some (p.1, extractPresetName p.1 p.2, p.2)
      else none)

/-- Whether a preset key is numeric-parseable (all digits), the property
the spec claims is enforced on registry keys. -/
def isNumericKey (s : String) : Bool :=
  !(s == "") && s.data.all Char.isDigit

/-- The nested color object `{r,g,b}` of the state mirror, as a heap
object (for object-identity reasoning about `getState` and
`notifyListeners`). -/
structure ColorObj where
  r : ℤ
  g : ℤ
  b : ℤ
  deriving DecidableEq, Repr

/-- A `WLEDState` object on the heap: scalar fields inline, the nested
`color` object held by reference. -/
structure StateObj where
  on' : Bool
  brightness : ℤ
  colorRef : ℕ
  hue : ℤ
  saturation : ℤ
  deriving DecidableEq, Repr

/-- A heap of state objects and color objects, addressed by index. -/
structure Heap where
  stateObjs : List StateObj
  colorObjs : List ColorObj
  deriving DecidableEq, Repr

/-- Read a state object. -/
def Heap.getStateObj (h : Heap) (r : ℕ) : Option StateObj :=
  h.stateObjs.get? r

/-- Read a color object. -/
def Heap.getColor (h : Heap) (r : ℕ) : Option ColorObj :=
  h.colorObjs.get? r

/-- Overwrite a color object in place (what `copy.color.r = v` does to the
shared nested object). -/
def Heap.writeColor (h : Heap) (r : ℕ) (c : ColorObj) : Heap :=
  { h with colorObjs := h.colorObjs.set r c }

/-- Overwrite the top-level `on` field of the state object at `r`. -/
def Heap.writeOn (h : Heap) (r : ℕ) (b : Bool) : Heap :=
  match h.stateObjs.get? r with
  | some o => { h with stateObjs := h.stateObjs.set r { o with on' := b } }
  | none => h

/-- `getState` (wledDevice.ts lines 461-463): `return { ...this.state }` —
allocates a fresh top-level object copying every field, including the
`color` reference (a shallow copy).  Returns the new heap and the copy's
reference. -/
def getState (h : Heap) (sref : ℕ) : Heap × ℕ :=
  match h.stateObjs.get? sref with
  | some o => ({ h with stateObjs := h.stateObjs ++ [o] }, h.stateObjs.length)
  | none => (h, sref)

/-- `notifyListeners` (wledDevice.ts lines 492-500) calls
`listener(this.state)`: the argument is the session's state object itself,
not a copy. -/
def notifyListenersArg (sref : ℕ) : ℕ := sref

/-- The session's mirrored color, read through its state object. -/
def mirrorColor (h : Heap) (sref : ℕ) : Option ColorObj :=
  match h.getStateObj sref with
  | some o => h.getColor o.colorRef
  | none => none

/-- A concrete address-style discovery candidate (used as a witness
input). -/
def devAddr : DiscoveredWLEDDevice :=
  ⟨"Strip", "10.0.1.50", 80, "AABBCCDDEEFF", "mdns", none⟩

/-- A concrete hostname-style discovery candidate with the same id (used
as a witness input). -/
def devLocal : DiscoveredWLEDDevice :=
  ⟨"Strip", "wled.local", 80, "AABBCCDDEEFF", "mdns", none⟩

/-- A concrete one-session heap: one state object whose nested color
object is `{r:1, g:2, b:3}` (used as a witness input). -/
def exHeap : Heap := ⟨[⟨true, 50, 0, 10, 20⟩], [⟨1, 2, 3⟩]⟩

/-- A concrete push-connected session with one registered listener. -/
def exSessConn : Session := ⟨true, true, true, initialState, [0], -1⟩

/-- A concrete session with WebSockets disabled (HTTP-direct path) and one
registered listener. -/
def exSessHttp : Session := ⟨false, false, false, initialState, [7], -1⟩

/-- A network where both the push send and the HTTP POST fail. -/
def exEnvBothFail : Env := ⟨true, true, false, initialState⟩

/-- A network where only the HTTP POST fails. -/
def exEnvPostFail : Env := ⟨false, true, false, initialState⟩

/-! ### Theorems -/

set_option maxRecDepth 100000
set_option allowUnsafeReducibility true
attribute [local semireducible] Rat.add Rat.sub Rat.mul Rat.inv Rat.div

theorem jsRound_zero : jsRound 0 = 0 := by
  unfold jsRound
  rw [zero_add]
  exact Int.floor_eq_zero_iff.mpr ⟨by norm_num, by norm_num⟩

theorem le_jsRound (a : ℤ) (x : ℚ) (h : (a : ℚ) ≤ x + 1/2) : a ≤ jsRound x :=
  Int.le_floor.mpr h

theorem jsRound_le (x : ℚ) (b : ℤ) (h : x + 1/2 < (b : ℚ) + 1) : jsRound x ≤ b := by
  have hlt : jsRound x < b + 1 := by
    apply Int.floor_lt.mpr
    push_cast
    linarith
  omega

/-- Brightness round trip, native side, checked over the full range. -/
theorem briNativeTrip :
    ∀ n : ℕ, n ≤ 255 →
      (briToNative ((briToPublic (n : ℚ) : ℤ) : ℚ) - (n : ℤ)).natAbs ≤ 1 := by
  decide

/-- Brightness round trip, public side, checked over the full range. -/
theorem briPublicTrip :
    ∀ n : ℕ, n ≤ 100 →
      (briToPublic ((briToNative (n : ℚ) : ℤ) : ℚ) - (n : ℤ)).natAbs ≤ 1 := by
  decide

/-- Claim C8: the brightness conversions used by `setBrightness` (public
0-100 to native 0-255) and by the state mirror (native to public) round
trip within ±1 over their full ranges, and `briToNative` clamps its result
into [0, 255] for every input. -/
theorem C8_brightness_roundtrip (x y : ℤ) (z : ℚ)
    (hx0 : 0 ≤ x) (hx1 : x ≤ 255) (hy0 : 0 ≤ y) (hy1 : y ≤ 100) :
    (briToNative ((briToPublic (x : ℚ) : ℤ) : ℚ) - x).natAbs ≤ 1 ∧
    (briToPublic ((briToNative (y : ℚ) : ℤ) : ℚ) - y).natAbs ≤ 1 ∧
    (0 ≤ briToNative z ∧ briToNative z ≤ 255) := by
  refine ⟨?_, ?_, le_max_left 0 _, max_le (by norm_num) (min_le_left 255 _)⟩
  · lift x to ℕ using hx0 with m
    have hm : m ≤ 255 := by exact_mod_cast hx1
    have htrip := briNativeTrip m hm
    push_cast
    push_cast at htrip
    exact htrip
  · lift y to ℕ using hy0 with m
    have hm : m ≤ 100 := by exact_mod_cast hy1
    have htrip := briPublicTrip m hm
    push_cast
    push_cast at htrip
    exact htrip

/-- Witness for C8 at concrete inputs. -/
theorem C8_brightness_roundtrip_witness :
    (briToNative ((briToPublic ((128 : ℤ) : ℚ) : ℤ) : ℚ) - 128).natAbs ≤ 1 ∧
    (briToPublic ((briToNative ((50 : ℤ) : ℚ) : ℤ) : ℚ) - 50).natAbs ≤ 1 ∧
    (0 ≤ briToNative (77 : ℚ) ∧ briToNative (77 : ℚ) ≤ 255) :=
  C8_brightness_roundtrip 128 50 77 (by norm_num) (by norm_num) (by norm_num)
    (by norm_num)

theorem failStep_fixpoint : ∀ j : ℕ, failStep^[j] (⟨10, true⟩ : ReconnSt) = ⟨10, true⟩ := by
  intro j
  induction j with
  | zero => rfl
  | succ n ih =>
    rw [Function.iterate_succ_apply]
    exact ih

theorem failStep_ten : failStep^[10] initialReconn = ⟨10, false⟩ := by decide

theorem failStep_past_ten :
    ∀ m : ℕ, failStep^[m] (⟨10, false⟩ : ReconnSt)
      = if m = 0 then ⟨10, false⟩ else ⟨10, true⟩ := by
  intro m
  cases m with
  | zero => rfl
  | succ j =>
    rw [Function.iterate_succ_apply]
    simpa using failStep_fixpoint j

/-- Claim C3: with the push channel never opening, the n-th scheduled
reconnection attempt (1 ≤ n ≤ 10) is delayed by `5000 * min n 5` ms; from
the failure of the 10th attempt on (k ≥ 11 close events), no further
reconnection is scheduled and the session is (and stays) in polling
mode. -/
theorem C3_reconnect_backoff (n k : ℕ)
    (hn1 : n ≤ 10) (hn2 : 1 ≤ n) (hk : 11 ≤ k) :
    (scheduleReconnect (failStep^[n - 1] initialReconn)).1
      = some (5000 * min n 5) ∧
    (scheduleReconnect (failStep^[k - 1] initialReconn)).1 = none ∧
    (failStep^[k] initialReconn).pollingActive = true := by
  obtain ⟨m, rfl⟩ : ∃ m, k = 11 + m := ⟨k - 11, by omega⟩
  have h1 : 11 + m - 1 = m + 10 := by omega
  have h2 : 11 + m = (m + 1) + 10 := by omega
  refine ⟨?_, ?_, ?_⟩
  · revert hn2
    revert hn1
    revert n
    decide
  · rw [h1, Function.iterate_add_apply, failStep_ten, failStep_past_ten]
    split_ifs <;> rfl
  · rw [h2, Function.iterate_add_apply, failStep_ten, failStep_past_ten]
    simp

/-- Witness for C3 at n = 3 and k = 12. -/
theorem C3_reconnect_backoff_witness :
    (scheduleReconnect (failStep^[3 - 1] initialReconn)).1
      = some (5000 * min 3 5) ∧
    (scheduleReconnect (failStep^[12 - 1] initialReconn)).1 = none ∧
    (failStep^[12] initialReconn).pollingActive = true :=
  C3_reconnect_backoff 3 12 (by norm_num) (by norm_num) (by norm_num)

theorem drainLoop_eq : ∀ l : List CheckItem, drainLoop l = l := by
  intro l
  induction l with
  | nil => rfl
  | cons a t ih => simp [drainLoop, ih]

/-- Claim C5: enqueuing a (host, port) pair already queued is a no-op, so
two enqueues yield exactly one queued item and hence exactly one probe
when the queue drains; the drain pops the queued items one at a time in
order, and a drain is started (or runs) only when none is active. -/
theorem C5_queue_dedup (st : CheckQueueSt) (host : String) (port : ℕ)
    (meth1 meth2 : String) (qAny : List CheckItem)
    (habs : st.checkQueue.any
        (fun i => i.host == host && i.port == port) = false) :
    ((queueDeviceCheck (queueDeviceCheck st host port meth1).1 host port meth2).1
       = (queueDeviceCheck st host port meth1).1) ∧
    ((queueDeviceCheck (queueDeviceCheck st host port meth1).1 host port meth2).2
       = false) ∧
    ((queueDeviceCheck st host port meth1).1.checkQueue.countP
       (fun i => i.host == host && i.port == port) = 1) ∧
    ((processCheckQueue
        ⟨(queueDeviceCheck st host port meth1).1.checkQueue, false⟩).2.countP
       (fun i => i.host == host && i.port == port) = 1) ∧
    ((processCheckQueue
        ⟨(queueDeviceCheck st host port meth1).1.checkQueue, false⟩).2
       = (queueDeviceCheck st host port meth1).1.checkQueue) ∧
    ((queueDeviceCheck st host port meth1).2 = !st.isProcessingQueue) ∧
    (processCheckQueue ⟨qAny, true⟩ = (⟨qAny, true⟩, [])) := by
  have hq1 : queueDeviceCheck st host port meth1
      = ({ st with checkQueue := st.checkQueue ++ [⟨host, port, meth1⟩] },
         !st.isProcessingQueue) := by
    simp only [queueDeviceCheck, habs]
    rfl
  have hcount0 : st.checkQueue.countP
      (fun i => i.host == host && i.port == port) = 0 := by
    rw [List.countP_eq_zero]
    intro a ha
    have := (List.any_eq_false.mp habs) a ha
    simpa using this
  have hany1 : ((queueDeviceCheck st host port meth1).1.checkQueue.any
      (fun i => i.host == host && i.port == port)) = true := by
    rw [hq1]
    simp [List.any_append]
  have hcount1 : (queueDeviceCheck st host port meth1).1.checkQueue.countP
      (fun i => i.host == host && i.port == port) = 1 := by
    rw [hq1]
    simp [List.countP_append, hcount0]
  have houter : queueDeviceCheck (queueDeviceCheck st host port meth1).1
      host port meth2 = ((queueDeviceCheck st host port meth1).1, false) := by
    conv =>
      lhs
      rw [queueDeviceCheck]
    rw [hany1]
    simp
  have hne : (queueDeviceCheck st host port meth1).1.checkQueue ≠ [] := by
    rw [hq1]
    simp
  have hproc : (processCheckQueue
      ⟨(queueDeviceCheck st host port meth1).1.checkQueue, false⟩).2
      = (queueDeviceCheck st host port meth1).1.checkQueue := by
    simp only [processCheckQueue]
    rw [if_neg]
    · exact drainLoop_eq _
    · simpa using hne
  refine ⟨?_, ?_, hcount1, ?_, hproc, ?_, ?_⟩
  · rw [houter]
  · rw [houter]
  · rw [hproc]
    exact hcount1
  · rw [hq1]
  · simp [processCheckQueue]

/-- Witness for C5: empty queue, the pair (10.0.1.50, 80) enqueued twice. -/
theorem C5_queue_dedup_witness :
    ((queueDeviceCheck
        (queueDeviceCheck ⟨[], false⟩ "10.0.1.50" 80 "mdns").1
        "10.0.1.50" 80 "ssdp").1
       = (queueDeviceCheck ⟨[], false⟩ "10.0.1.50" 80 "mdns").1) ∧
    ((queueDeviceCheck
        (queueDeviceCheck ⟨[], false⟩ "10.0.1.50" 80 "mdns").1
        "10.0.1.50" 80 "ssdp").2 = false) ∧
    ((queueDeviceCheck ⟨[], false⟩ "10.0.1.50" 80 "mdns").1.checkQueue.countP
       (fun i => i.host == "10.0.1.50" && i.port == 80) = 1) ∧
    ((processCheckQueue
        ⟨(queueDeviceCheck ⟨[], false⟩ "10.0.1.50" 80 "mdns").1.checkQueue,
         false⟩).2.countP
       (fun i => i.host == "10.0.1.50" && i.port == 80) = 1) ∧
    ((processCheckQueue
        ⟨(queueDeviceCheck ⟨[], false⟩ "10.0.1.50" 80 "mdns").1.checkQueue,
         false⟩).2
       = (queueDeviceCheck ⟨[], false⟩ "10.0.1.50" 80 "mdns").1.checkQueue) ∧
    ((queueDeviceCheck ⟨[], false⟩ "10.0.1.50" 80 "mdns").2 = !false) ∧
    (processCheckQueue ⟨[⟨"192.168.1.7", 80, "mdns"⟩], true⟩
       = (⟨[⟨"192.168.1.7", 80, "mdns"⟩], true⟩, [])) :=
  C5_queue_dedup ⟨[], false⟩ "10.0.1.50" 80 "mdns" "ssdp"
    [⟨"192.168.1.7", 80, "mdns"⟩] (by decide)

theorem mapGet_none_iff {m : DeviceMap} {k : String} :
    mapGet m k = none ↔ ∀ p ∈ m, (p.1 == k) = false := by
  unfold mapGet
  rw [Option.map_eq_none', List.find?_eq_none]
  constructor
  · intro h p hp
    simpa using h p hp
  · intro h p hp
    simp [h p hp]

theorem mapSet_new {m : DeviceMap} {k : String}
    (h : mapGet m k = none) (v : DiscoveredWLEDDevice) :
    mapSet m k v = m ++ [(k, v)] := by
  unfold mapSet
  have hany : m.any (fun p => p.1 == k) = false := by
    rw [List.any_eq_false]
    intro p hp
    simp [mapGet_none_iff.mp h p hp]
  rw [hany]
  simp

theorem mapGet_append_new {m : DeviceMap} {k : String}
    (h : mapGet m k = none) (v : DiscoveredWLEDDevice) :
    mapGet (m ++ [(k, v)]) k = some v := by
  have hn : m.find? (fun p => p.1 == k) = none := Option.map_eq_none'.mp h
  unfold mapGet
  rw [List.find?_append, hn]
  simp

theorem countP_append_new {m : DeviceMap} {k : String}
    (h : mapGet m k = none) (v : DiscoveredWLEDDevice) :
    (m ++ [(k, v)]).countP (fun p => p.1 == k) = 1 := by
  rw [List.countP_append]
  have h0 : m.countP (fun p => p.1 == k) = 0 := by
    rw [List.countP_eq_zero]
    intro p hp
    simp [mapGet_none_iff.mp h p hp]
  simp [h0]

/-- Claim C4: two confirmed candidates with the same id, one with a
`.local` hostname and one with a literal address, collapse — in either
insertion order — to a single entry for that id, and that entry is the
address-style candidate (so it carries the literal-address host). -/
theorem C4_prefer_address (m : DeviceMap) (devA devL : DiscoveredWLEDDevice)
    (hid : devA.id = devL.id)
    (hA : jsEndsWith devA.host ".local" = false)
    (hL : jsEndsWith devL.host ".local" = true)
    (hnew : mapGet m devA.id = none) :
    (addDiscoveredDevice (addDiscoveredDevice m devA) devL
       = m ++ [(devA.id, devA)] ∧
     addDiscoveredDevice (addDiscoveredDevice m devL) devA
       = m ++ [(devA.id, devA)]) ∧
    mapGet (m ++ [(devA.id, devA)]) devA.id = some devA ∧
    (m ++ [(devA.id, devA)]).countP (fun p => p.1 == devA.id) = 1 := by
  have hnewL : mapGet m devL.id = none := by
    rw [← hid]
    exact hnew
  have step1A : addDiscoveredDevice m devA = m ++ [(devA.id, devA)] := by
    unfold addDiscoveredDevice
    rw [hnew]
    exact mapSet_new hnew devA
  have step1L : addDiscoveredDevice m devL = m ++ [(devL.id, devL)] := by
    unfold addDiscoveredDevice
    rw [hnewL]
    exact mapSet_new hnewL devL
  have step2AL : addDiscoveredDevice (m ++ [(devA.id, devA)]) devL
      = m ++ [(devA.id, devA)] := by
    have hget : mapGet (m ++ [(devA.id, devA)]) devL.id = some devA := by
      rw [← hid]
      exact mapGet_append_new hnew devA
    unfold addDiscoveredDevice
    rw [hget]
    simp [hA, hL]
  have step2LA : addDiscoveredDevice (m ++ [(devL.id, devL)]) devA
      = m ++ [(devA.id, devA)] := by
    have hget : mapGet (m ++ [(devL.id, devL)]) devA.id = some devL := by
      rw [hid]
      exact mapGet_append_new hnewL devL
    have hmapset : mapSet (m ++ [(devL.id, devL)]) devA.id devA
        = m ++ [(devA.id, devA)] := by
      unfold mapSet
      have hany : (m ++ [(devL.id, devL)]).any (fun p => p.1 == devA.id)
          = true := by
        rw [List.any_append]
        simp [hid]
      rw [hany]
      simp only [if_true, ite_true, List.map_append]
      congr 1
      · calc m.map (fun p => if p.1 == devA.id then (devA.id, devA) else p)
            = m.map (fun p => p) := by
              apply List.map_congr_left
              intro p hp
              simp [mapGet_none_iff.mp hnew p hp]
        _ = m := List.map_id' m
      · simp [hid]
    unfold addDiscoveredDevice
    rw [hget]
    simp [hA, hL, hmapset]
  refine ⟨⟨?_, ?_⟩, mapGet_append_new hnew devA, countP_append_new hnew devA⟩
  · rw [step1A]
    exact step2AL
  · rw [step1L]
    exact step2LA

/-- Witness for C4: empty map, one literal-address candidate and one
`.local` candidate sharing the id `AABBCCDDEEFF`. -/
theorem C4_prefer_address_witness :
    (addDiscoveredDevice (addDiscoveredDevice [] devAddr) devLocal
       = ([] : DeviceMap) ++ [(devAddr.id, devAddr)] ∧
     addDiscoveredDevice (addDiscoveredDevice [] devLocal) devAddr
       = ([] : DeviceMap) ++ [(devAddr.id, devAddr)]) ∧
    mapGet (([] : DeviceMap) ++ [(devAddr.id, devAddr)]) devAddr.id = some devAddr ∧
    (([] : DeviceMap) ++ [(devAddr.id, devAddr)]).countP (fun p => p.1 == devAddr.id) = 1 :=
  C4_prefer_address [] devAddr devLocal rfl (by decide) (by decide) rfl

/-- Counterexample to C9 as stated: a raw preset map with the non-numeric
key `foo` mapped to an object is retained under that key, so the populated
registry can contain a non-numeric key. -/
theorem C9_counterexample :
    (getPresetsFromRaw [("foo", JVal.obj [])]).map (fun e => e.1) = ["foo"] ∧
    isNumericKey "foo" = false := by
  exact ⟨rfl, by decide⟩

/-- Claim C9 (amended): every entry of the populated registry avoids the
two reserved metadata keys `_name` and `_type`, comes from a raw entry
whose value is a non-null object, and maps the id to the extracted display
name together with the raw payload; non-numeric keys other than the two
reserved ones are NOT discarded. -/
theorem C9_presets_registry (raw : List (String × JVal)) (k n : String)
    (v : JVal) (hmem : (k, n, v) ∈ getPresetsFromRaw raw) :
    k ≠ "_name" ∧ k ≠ "_type" ∧ isObjectNonNull v = true ∧
    n = extractPresetName k v ∧ (k, v) ∈ raw := by
  unfold getPresetsFromRaw at hmem
  rw [List.mem_filterMap] at hmem
  obtain ⟨p, hp, heq⟩ := hmem
  rw [List.mem_filter] at hp
  obtain ⟨hpraw, hpkeys⟩ := hp
  by_cases hobj : isObjectNonNull p.2 = true
  · rw [if_pos hobj] at heq
    have hk : p.1 = k := congrArg (fun e => e.1) (Option.some.inj heq)
    have hn : extractPresetName p.1 p.2 = n :=
      congrArg (fun e => e.2.1) (Option.some.inj heq)
    have hv : p.2 = v := congrArg (fun e => e.2.2) (Option.some.inj heq)
    have hkeys := hpkeys
    rw [hk] at hkeys
    simp only [Bool.and_eq_true, Bool.not_eq_true', beq_eq_false_iff_ne] at hkeys
    refine ⟨hkeys.1, hkeys.2, hv ▸ hobj, ?_, ?_⟩
    · rw [← hn, hk, hv]
    · have : p = (k, v) := Prod.ext hk hv
      rw [← this]
      exact hpraw
  · rw [if_neg hobj] at heq
    exact absurd heq (by simp)

/-- Witness for C9: a one-entry raw map with a named preset. -/
theorem C9_presets_registry_witness :
    "1" ≠ "_name" ∧ "1" ≠ "_type" ∧
    isObjectNonNull (JVal.obj [("n", JVal.str "Sunrise")]) = true ∧
    "Sunrise" = extractPresetName "1" (JVal.obj [("n", JVal.str "Sunrise")]) ∧
    ("1", JVal.obj [("n", JVal.str "Sunrise")])
      ∈ [("1", JVal.obj [("n", JVal.str "Sunrise")])] :=
  C9_presets_registry [("1", JVal.obj [("n", JVal.str "Sunrise")])]
    "1" "Sunrise" (JVal.obj [("n", JVal.str "Sunrise")]) (List.Mem.head _)

/-- Counterexample to C10 as stated: `getState` hands out a shallow copy
whose nested color object is shared with the mirror — writing the color
through the returned copy changes the session's mirrored color from
(1,2,3) to (99,2,3) — and `notifyListeners` passes the mirror object
itself, so a listener write mutates the mirror too. -/
theorem C10_counterexample :
    ((getState exHeap 0).1.getStateObj (getState exHeap 0).2).map
        StateObj.colorRef = some 0 ∧
    mirrorColor exHeap 0 = some ⟨1, 2, 3⟩ ∧
    mirrorColor ((getState exHeap 0).1.writeColor 0 ⟨99, 2, 3⟩) 0
      = some ⟨99, 2, 3⟩ ∧
    exHeap.getStateObj 0 = some ⟨true, 50, 0, 10, 20⟩ ∧
    (exHeap.writeOn (notifyListenersArg 0) false).getStateObj 0
      = some ⟨false, 50, 0, 10, 20⟩ := by
  exact ⟨rfl, rfl, rfl, rfl, rfl⟩

/-- Claim C10 (amended): `getState` allocates a fresh top-level object (a
shallow copy): mutating the copy's top-level fields leaves the mirror
unchanged, but the copy shares the nested color object, so writing the
color through the copy's reference changes the mirror; `notifyListeners`
hands listeners the mirror object itself, so any listener field write is a
mirror write. -/
theorem C10_state_sharing (h : Heap) (sref : ℕ) (o : StateObj)
    (bCopy bLis : Bool) (c : ColorObj)
    (ho : h.getStateObj sref = some o)
    (hc : o.colorRef < h.colorObjs.length) :
    (getState h sref).2 = h.stateObjs.length ∧
    sref ≠ (getState h sref).2 ∧
    (getState h sref).1.getStateObj (getState h sref).2 = some o ∧
    (getState h sref).1.getStateObj sref = some o ∧
    ((getState h sref).1.writeOn (getState h sref).2 bCopy).getStateObj sref
      = some o ∧
    mirrorColor ((getState h sref).1.writeColor o.colorRef c) sref = some c ∧
    notifyListenersArg sref = sref ∧
    (h.writeOn (notifyListenersArg sref) bLis).getStateObj sref
      = some { o with on' := bLis } := by
  have ho' : h.stateObjs.get? sref = some o := ho
  have hlt : sref < h.stateObjs.length := by
    by_contra hge
    push_neg at hge
    rw [List.get?_eq_none.mpr hge] at ho'
    exact Option.noConfusion ho'
  have hgs : getState h sref
      = ({ h with stateObjs := h.stateObjs ++ [o] }, h.stateObjs.length) := by
    unfold getState
    rw [ho']
  have hne : h.stateObjs.length ≠ sref := by omega
  have hcopy : (h.stateObjs ++ [o]).get? h.stateObjs.length = some o :=
    List.get?_concat_length _ _
  have hmirr : (h.stateObjs ++ [o]).get? sref = some o := by
    rw [List.get?_append hlt]
    exact ho'
  refine ⟨by rw [hgs], by rw [hgs]; omega, ?_, ?_, ?_, ?_, rfl, ?_⟩
  · rw [hgs]
    exact hcopy
  · rw [hgs]
    exact hmirr
  · rw [hgs]
    show Heap.getStateObj (Heap.writeOn _ _ _) _ = some o
    unfold Heap.writeOn
    rw [hcopy]
    show ((h.stateObjs ++ [o]).set h.stateObjs.length _).get? sref = some o
    rw [List.get?_set_ne _ _ hne]
    exact hmirr
  · rw [hgs]
    show mirrorColor (Heap.writeColor _ _ _) _ = some c
    unfold mirrorColor Heap.writeColor Heap.getStateObj Heap.getColor
    simp only
    rw [hmirr]
    exact List.get?_set_eq_of_lt _ hc
  · show Heap.getStateObj (Heap.writeOn h sref bLis) sref = _
    unfold Heap.writeOn
    rw [ho']
    show (h.stateObjs.set sref _).get? sref = _
    exact List.get?_set_eq_of_lt _ hlt

/-- Witness for C10 on the concrete one-session heap. -/
theorem C10_state_sharing_witness :
    (getState exHeap 0).2 = exHeap.stateObjs.length ∧
    0 ≠ (getState exHeap 0).2 ∧
    (getState exHeap 0).1.getStateObj (getState exHeap 0).2
      = some ⟨true, 50, 0, 10, 20⟩ ∧
    (getState exHeap 0).1.getStateObj 0 = some ⟨true, 50, 0, 10, 20⟩ ∧
    ((getState exHeap 0).1.writeOn (getState exHeap 0).2 false).getStateObj 0
      = some ⟨true, 50, 0, 10, 20⟩ ∧
    mirrorColor
        ((getState exHeap 0).1.writeColor
          (⟨true, 50, 0, 10, 20⟩ : StateObj).colorRef ⟨99, 2, 3⟩) 0
      = some ⟨99, 2, 3⟩ ∧
    notifyListenersArg 0 = 0 ∧
    (exHeap.writeOn (notifyListenersArg 0) false).getStateObj 0
      = some { (⟨true, 50, 0, 10, 20⟩ : StateObj) with on' := false } :=
  C10_state_sharing exHeap 0 ⟨true, 50, 0, 10, 20⟩ false false ⟨99, 2, 3⟩
    rfl (by decide)

/-- Counterexample to C1 as stated: push channel connected, the push send
fails, the HTTP fallback of the same patch is issued and also fails — yet
the call still reports success to the caller (the fallback rejection is
caught and only logged), so "reports failure iff the HTTP fallback fails"
is false. -/
theorem C1_counterexample :
    (setPower exSessConn exEnvBothFail true).1.httpFallback
      = some (.power true) ∧
    (setPower exSessConn exEnvBothFail true).1.httpFallbackFailed = true ∧
    (setPower exSessConn exEnvBothFail true).1.failure = false :=
  ⟨rfl, rfl, rfl⟩

/-- Claim C1 (amended): for every mutation operation, when the push
channel is connected and the push send fails, the same patch is posted by
HTTP within the same call, but the call never reports failure to the
caller — the HTTP fallback is fire-and-forget and its rejection is only
logged. -/
theorem C1_push_fallback_silent (sess : Session) (env : Env)
    (o : Bool) (i : ℕ) (briQ fxQ psQ r g b : ℚ)
    (hws : sess.useWebSockets = true) (hconn : sess.isConnected = true)
    (hopen : sess.wsOpen = true) (hsend : env.wsSendFails = true) :
    ((setPower sess env o).1.httpFallback = some (.power o) ∧
     (setPower sess env o).1.failure = false) ∧
    ((setSegmentPower sess env i o).1.httpFallback = some (.segPower i o) ∧
     (setSegmentPower sess env i o).1.failure = false) ∧
    ((setBrightness sess env briQ).1.httpFallback
        = some (.bri (briToNative briQ)) ∧
     (setBrightness sess env briQ).1.failure = false) ∧
    ((setSegmentBrightness sess env i briQ).1.httpFallback
        = some (.segBri i (briToNative briQ)) ∧
     (setSegmentBrightness sess env i briQ).1.failure = false) ∧
    ((setColor sess env r g b).1.httpFallback = some (.segCol 0 r g b) ∧
     (setColor sess env r g b).1.failure = false) ∧
    ((setSegmentColor sess env i r g b).1.httpFallback
        = some (.segCol i r g b) ∧
     (setSegmentColor sess env i r g b).1.failure = false) ∧
    ((setEffect sess env fxQ).1.httpFallback = some (.segFx 0 fxQ) ∧
     (setEffect sess env fxQ).1.failure = false) ∧
    ((setSegmentEffect sess env i fxQ).1.httpFallback = some (.segFx i fxQ) ∧
     (setSegmentEffect sess env i fxQ).1.failure = false) ∧
    ((activatePreset sess env psQ).1.httpFallback = some (.ps psQ) ∧
     (activatePreset sess env psQ).1.failure = false) := by
  refine ⟨⟨?_, ?_⟩, ⟨?_, ?_⟩, ⟨?_, ?_⟩, ⟨?_, ?_⟩, ⟨?_, ?_⟩, ⟨?_, ?_⟩,
    ⟨?_, ?_⟩, ⟨?_, ?_⟩, ⟨?_, ?_⟩⟩ <;>
  simp [setPower, setSegmentPower, setBrightness, setSegmentBrightness,
    setColor, setSegmentColor, setEffect, setSegmentEffect, activatePreset,
    runMutation, sendWebSocketUpdate, hws, hconn, hopen, hsend]

/-- Witness for C1 on the concrete connected session. -/
theorem C1_push_fallback_silent_witness :
    ((setPower exSessConn exEnvBothFail true).1.httpFallback
        = some (.power true) ∧
     (setPower exSessConn exEnvBothFail true).1.failure = false) ∧
    ((setSegmentPower exSessConn exEnvBothFail 1 true).1.httpFallback
        = some (.segPower 1 true) ∧
     (setSegmentPower exSessConn exEnvBothFail 1 true).1.failure = false) ∧
    ((setBrightness exSessConn exEnvBothFail 50).1.httpFallback
        = some (.bri (briToNative 50)) ∧
     (setBrightness exSessConn exEnvBothFail 50).1.failure = false) ∧
    ((setSegmentBrightness exSessConn exEnvBothFail 1 50).1.httpFallback
        = some (.segBri 1 (briToNative 50)) ∧
     (setSegmentBrightness exSessConn exEnvBothFail 1 50).1.failure = false) ∧
    ((setColor exSessConn exEnvBothFail 10 20 30).1.httpFallback
        = some (.segCol 0 10 20 30) ∧
     (setColor exSessConn exEnvBothFail 10 20 30).1.failure = false) ∧
    ((setSegmentColor exSessConn exEnvBothFail 1 10 20 30).1.httpFallback
        = some (.segCol 1 10 20 30) ∧
     (setSegmentColor exSessConn exEnvBothFail 1 10 20 30).1.failure
        = false) ∧
    ((setEffect exSessConn exEnvBothFail 2).1.httpFallback
        = some (.segFx 0 2) ∧
     (setEffect exSessConn exEnvBothFail 2).1.failure = false) ∧
    ((setSegmentEffect exSessConn exEnvBothFail 1 2).1.httpFallback
        = some (.segFx 1 2) ∧
     (setSegmentEffect exSessConn exEnvBothFail 1 2).1.failure = false) ∧
    ((activatePreset exSessConn exEnvBothFail 3).1.httpFallback
        = some (.ps 3) ∧
     (activatePreset exSessConn exEnvBothFail 3).1.failure = false) :=
  C1_push_fallback_silent exSessConn exEnvBothFail true 1 50 2 3 10 20 30
    rfl rfl rfl rfl

/-- Counterexample to C2 as stated: in the HTTP-direct path a failing POST
aborts `setPower` before the optimistic update, so the mirror is not set
to the requested value and no listener is notified — the claim's
"regardless of whether the transport confirms or fails" is false. -/
theorem C2_counterexample :
    (setPower exSessHttp exEnvPostFail true).1.failure = true ∧
    (setPower exSessHttp exEnvPostFail true).2.state.on' = false ∧
    (setPower exSessHttp exEnvPostFail true).1.notifications = [] :=
  ⟨rfl, rfl, rfl⟩

/-- Claim C2 (amended): for `setPower`, `setBrightness` and `setColor`
with in-range arguments, the mirror is updated to the requested value and
every registered listener is notified synchronously exactly when the push
channel carries the request (regardless of transport outcome) or the
awaited HTTP POST succeeds; a failing HTTP-direct POST aborts the call
before the update, and the call fails exactly in that case. -/
theorem C2_optimistic_mirror (sess : Session) (env : Env)
    (o : Bool) (q r g b : ℚ)
    (hq0 : 0 ≤ q) (hq1 : q ≤ 100)
    (hr0 : 0 ≤ r) (hr1 : r ≤ 255) (hg0 : 0 ≤ g) (hg1 : g ≤ 255)
    (hb0 : 0 ≤ b) (hb1 : b ≤ 255) :
    ((setPower sess env o).2.state
       = (if (sess.useWebSockets && sess.isConnected) || !env.httpPostFails
          then { sess.state with on' := o } else sess.state) ∧
     (setPower sess env o).1.notifications
       = (if (sess.useWebSockets && sess.isConnected) || !env.httpPostFails
          then sess.stateListeners.map
            (fun l => (l, { sess.state with on' := o }))
          else []) ∧
     (setPower sess env o).1.failure
       = (!(sess.useWebSockets && sess.isConnected) && env.httpPostFails)) ∧
    ((setBrightness sess env q).2.state
       = (if (sess.useWebSockets && sess.isConnected) || !env.httpPostFails
          then { sess.state with brightness := q } else sess.state) ∧
     (setBrightness sess env q).1.notifications
       = (if (sess.useWebSockets && sess.isConnected) || !env.httpPostFails
          then sess.stateListeners.map
            (fun l => (l, { sess.state with brightness := q }))
          else []) ∧
     (setBrightness sess env q).1.failure
       = (!(sess.useWebSockets && sess.isConnected) && env.httpPostFails)) ∧
    ((setColor sess env r g b).2.state
       = (if (sess.useWebSockets && sess.isConnected) || !env.httpPostFails
          then { sess.state with
                 colorR := r, colorG := g, colorB := b,
                 hue := (rgbToHsv r g b).h, saturation := (rgbToHsv r g b).s,
                 colorMode := "rgb" }
          else sess.state) ∧
     (setColor sess env r g b).1.notifications
       = (if (sess.useWebSockets && sess.isConnected) || !env.httpPostFails
          then sess.stateListeners.map
            (fun l => (l, { sess.state with
              colorR := r, colorG := g, colorB := b,
              hue := (rgbToHsv r g b).h, saturation := (rgbToHsv r g b).s,
              colorMode := "rgb" }))
          else []) ∧
     (setColor sess env r g b).1.failure
       = (!(sess.useWebSockets && sess.isConnected) && env.httpPostFails)) := by
  cases hmode : (sess.useWebSockets && sess.isConnected) <;>
    cases hpost : env.httpPostFails <;>
      simp [setPower, setBrightness, setColor, runMutation,
        sendWebSocketUpdate, hmode, hpost]

/-- Witness for C2 on the concrete HTTP-path session with a succeeding
POST. -/
theorem C2_optimistic_mirror_witness :
    ((setPower exSessHttp ⟨false, false, false, initialState⟩ true).2.state
       = (if (exSessHttp.useWebSockets && exSessHttp.isConnected)
             || !(⟨false, false, false, initialState⟩ : Env).httpPostFails
          then { exSessHttp.state with on' := true } else exSessHttp.state) ∧
     (setPower exSessHttp ⟨false, false, false, initialState⟩ true).1.notifications
       = (if (exSessHttp.useWebSockets && exSessHttp.isConnected)
             || !(⟨false, false, false, initialState⟩ : Env).httpPostFails
          then exSessHttp.stateListeners.map
            (fun l => (l, { exSessHttp.state with on' := true }))
          else []) ∧
     (setPower exSessHttp ⟨false, false, false, initialState⟩ true).1.failure
       = (!(exSessHttp.useWebSockets && exSessHttp.isConnected)
           && (⟨false, false, false, initialState⟩ : Env).httpPostFails)) ∧
    ((setBrightness exSessHttp ⟨false, false, false, initialState⟩ 75).2.state
       = (if (exSessHttp.useWebSockets && exSessHttp.isConnected)
             || !(⟨false, false, false, initialState⟩ : Env).httpPostFails
          then { exSessHttp.state with brightness := 75 }
          else exSessHttp.state) ∧
     (setBrightness exSessHttp
         ⟨false, false, false, initialState⟩ 75).1.notifications
       = (if (exSessHttp.useWebSockets && exSessHttp.isConnected)
             || !(⟨false, false, false, initialState⟩ : Env).httpPostFails
          then exSessHttp.stateListeners.map
            (fun l => (l, { exSessHttp.state with brightness := 75 }))
          else []) ∧
     (setBrightness exSessHttp ⟨false, false, false, initialState⟩ 75).1.failure
       = (!(exSessHttp.useWebSockets && exSessHttp.isConnected)
           && (⟨false, false, false, initialState⟩ : Env).httpPostFails)) ∧
    ((setColor exSessHttp ⟨false, false, false, initialState⟩ 255 128 0).2.state
       = (if (exSessHttp.useWebSockets && exSessHttp.isConnected)
             || !(⟨false, false, false, initialState⟩ : Env).httpPostFails
          then { exSessHttp.state with
                 colorR := 255, colorG := 128, colorB := 0,
                 hue := (rgbToHsv 255 128 0).h,
                 saturation := (rgbToHsv 255 128 0).s,
                 colorMode := "rgb" }
          else exSessHttp.state) ∧
     (setColor exSessHttp
         ⟨false, false, false, initialState⟩ 255 128 0).1.notifications
       = (if (exSessHttp.useWebSockets && exSessHttp.isConnected)
             || !(⟨false, false, false, initialState⟩ : Env).httpPostFails
          then exSessHttp.stateListeners.map
            (fun l => (l, { exSessHttp.state with
              colorR := 255, colorG := 128, colorB := 0,
              hue := (rgbToHsv 255 128 0).h,
              saturation := (rgbToHsv 255 128 0).s,
              colorMode := "rgb" }))
          else []) ∧
     (setColor exSessHttp ⟨false, false, false, initialState⟩ 255 128 0).1.failure
       = (!(exSessHttp.useWebSockets && exSessHttp.isConnected)
           && (⟨false, false, false, initialState⟩ : Env).httpPostFails)) :=
  C2_optimistic_mirror exSessHttp ⟨false, false, false, initialState⟩
    true 75 255 128 0 (by norm_num) (by norm_num) (by norm_num) (by norm_num)
    (by norm_num) (by norm_num) (by norm_num) (by norm_num)

theorem jsRem_small (x : ℚ) (h1 : -1 ≤ x) (h2 : x ≤ 1) : jsRem x 6 = x := by
  unfold jsRem jsTrunc
  by_cases hx : 0 ≤ x / 6
  · rw [if_pos hx]
    have hfl : Int.floor (x / 6) = 0 := by
      apply Int.floor_eq_zero_iff.mpr
      constructor
      · exact hx
      · rw [div_lt_one (by norm_num : (0:ℚ) < 6)]
        linarith
    rw [hfl]
    ring
  · rw [if_neg hx]
    push_neg at hx
    have hcl : Int.ceil (x / 6) = 0 := by
      apply Int.ceil_eq_zero_iff.mpr
      constructor
      · show (-1 : ℚ) < x / 6
        rw [lt_div_iff (by norm_num : (0:ℚ) < 6)]
        linarith
      · exact le_of_lt hx
    rw [hcl]
    ring

/-- Projection of the hue component of `rgbToHsv`. -/
theorem rgbToHsv_h (r g b : ℚ) :
    (rgbToHsv r g b).h
      = hueAdjust (jsRound (hueSector (r / 255) (g / 255) (b / 255)
          (max (r / 255) (max (g / 255) (b / 255)))
          (max (r / 255) (max (g / 255) (b / 255))
            - min (r / 255) (min (g / 255) (b / 255))) * 60)) := rfl

/-- Projection of the saturation component of `rgbToHsv`. -/
theorem rgbToHsv_s (r g b : ℚ) :
    (rgbToHsv r g b).s
      = jsRound ((if max (r / 255) (max (g / 255) (b / 255)) = 0 then 0
          else (max (r / 255) (max (g / 255) (b / 255))
            - min (r / 255) (min (g / 255) (b / 255)))
            / max (r / 255) (max (g / 255) (b / 255))) * 100) := rfl

/-- The hue sector value always lies in [-1, 5]. -/
theorem hueSector_bounds (r' g' b' : ℚ) :
    -1 ≤ hueSector r' g' b' (max r' (max g' b'))
        (max r' (max g' b') - min r' (min g' b')) ∧
    hueSector r' g' b' (max r' (max g' b'))
        (max r' (max g' b') - min r' (min g' b')) ≤ 5 := by
  have hrmx : r' ≤ max r' (max g' b') := le_max_left _ _
  have hgmx : g' ≤ max r' (max g' b') :=
    le_trans (le_max_left _ _) (le_max_right _ _)
  have hbmx : b' ≤ max r' (max g' b') :=
    le_trans (le_max_right _ _) (le_max_right _ _)
  have hmnr : min r' (min g' b') ≤ r' := min_le_left _ _
  have hmng : min r' (min g' b') ≤ g' :=
    le_trans (min_le_right _ _) (min_le_left _ _)
  have hmnb : min r' (min g' b') ≤ b' :=
    le_trans (min_le_right _ _) (min_le_right _ _)
  have hd0 : 0 ≤ max r' (max g' b') - min r' (min g' b') := by linarith
  unfold hueSector
  split_ifs with h1 h2 h3
  · norm_num
  · have hdpos : 0 < max r' (max g' b') - min r' (min g' b') :=
      lt_of_le_of_ne hd0 (Ne.symm h1)
    have hub : (g' - b') / (max r' (max g' b') - min r' (min g' b')) ≤ 1 := by
      rw [div_le_one hdpos]
      linarith
    have hlb : -1 ≤ (g' - b') / (max r' (max g' b') - min r' (min g' b')) := by
      rw [le_div_iff hdpos]
      linarith
    rw [jsRem_small _ hlb hub]
    exact ⟨hlb, le_trans hub (by norm_num)⟩
  · have hdpos : 0 < max r' (max g' b') - min r' (min g' b') :=
      lt_of_le_of_ne hd0 (Ne.symm h1)
    have hub : (b' - r') / (max r' (max g' b') - min r' (min g' b')) ≤ 1 := by
      rw [div_le_one hdpos]
      linarith
    have hlb : -1 ≤ (b' - r') / (max r' (max g' b') - min r' (min g' b')) := by
      rw [le_div_iff hdpos]
      linarith
    constructor <;> linarith
  · have hdpos : 0 < max r' (max g' b') - min r' (min g' b') :=
      lt_of_le_of_ne hd0 (Ne.symm h1)
    have hub : (r' - g') / (max r' (max g' b') - min r' (min g' b')) ≤ 1 := by
      rw [div_le_one hdpos]
      linarith
    have hlb : -1 ≤ (r' - g') / (max r' (max g' b') - min r' (min g' b')) := by
      rw [le_div_iff hdpos]
      linarith
    constructor <;> linarith

/-- The hue returned by `rgbToHsv` always lies in [0, 360). -/
theorem rgbToHsv_h_range (r g b : ℚ) :
    0 ≤ (rgbToHsv r g b).h ∧ (rgbToHsv r g b).h < 360 := by
  rw [rgbToHsv_h]
  obtain ⟨hl, hu⟩ := hueSector_bounds (r / 255) (g / 255) (b / 255)
  have hjl : (-60 : ℤ) ≤ jsRound (hueSector (r / 255) (g / 255) (b / 255)
      (max (r / 255) (max (g / 255) (b / 255)))
      (max (r / 255) (max (g / 255) (b / 255))
        - min (r / 255) (min (g / 255) (b / 255))) * 60) := by
    apply le_jsRound
    push_cast
    linarith
  have hju : jsRound (hueSector (r / 255) (g / 255) (b / 255)
      (max (r / 255) (max (g / 255) (b / 255)))
      (max (r / 255) (max (g / 255) (b / 255))
        - min (r / 255) (min (g / 255) (b / 255))) * 60) ≤ 300 := by
    apply jsRound_le
    push_cast
    linarith
  unfold hueAdjust
  split_ifs with hneg
  · constructor <;> omega
  · constructor <;> omega

/-- On the diagonal (equal channels) the hue and saturation are both 0. -/
theorem rgbToHsv_diag (x : ℚ) :
    (rgbToHsv x x x).s = 0 ∧ (rgbToHsv x x x).h = 0 := by
  constructor
  · rw [rgbToHsv_s]
    simp only [max_self, min_self, sub_self]
    split_ifs with h0
    · simpa using jsRound_zero
    · rw [zero_div]
      simpa using jsRound_zero
  · rw [rgbToHsv_h]
    have hz : hueSector (x / 255) (x / 255) (x / 255)
        (max (x / 255) (max (x / 255) (x / 255)))
        (max (x / 255) (max (x / 255) (x / 255))
          - min (x / 255) (min (x / 255) (x / 255))) = 0 := by
      unfold hueSector
      simp [max_self, min_self]
    rw [hz]
    simpa [hueAdjust] using jsRound_zero

/-- Counterexample to C6 as stated: (255, 255, 254) has unequal channels
but its rounded saturation is 0 (delta/max = 1/255, times 100 rounds to
0), so "saturation 0 only if r = g = b" is false. -/
theorem C6_counterexample :
    (rgbToHsv 255 255 254).s = 0 ∧ ((254 : ℚ) = 255 → False) := by
  constructor
  · decide
  · intro hcontra
    exact absurd hcontra (by norm_num)

/-- Claim C6 (amended): for integer channels in [0, 255], the hue is
always in [0, 360), and if r = g = b (equivalently max = min, the
degenerate delta = 0 case) the saturation and the hue are both 0; the
converse of the saturation clause is dropped (it fails, e.g. at
(255, 255, 254)). -/
theorem C6_rgbToHsv_props (r g b x : ℤ)
    (hr0 : 0 ≤ r) (hr1 : r ≤ 255) (hg0 : 0 ≤ g) (hg1 : g ≤ 255)
    (hb0 : 0 ≤ b) (hb1 : b ≤ 255) (hx0 : 0 ≤ x) (hx1 : x ≤ 255) :
    (0 ≤ (rgbToHsv (r : ℚ) (g : ℚ) (b : ℚ)).h ∧
     (rgbToHsv (r : ℚ) (g : ℚ) (b : ℚ)).h < 360) ∧
    ((rgbToHsv (x : ℚ) (x : ℚ) (x : ℚ)).s = 0 ∧
     (rgbToHsv (x : ℚ) (x : ℚ) (x : ℚ)).h = 0) :=
  ⟨rgbToHsv_h_range _ _ _, rgbToHsv_diag _⟩

/-- Witness for C6 at (10, 20, 30) and the diagonal value 7. -/
theorem C6_rgbToHsv_props_witness :
    (0 ≤ (rgbToHsv ((10 : ℤ) : ℚ) ((20 : ℤ) : ℚ) ((30 : ℤ) : ℚ)).h ∧
     (rgbToHsv ((10 : ℤ) : ℚ) ((20 : ℤ) : ℚ) ((30 : ℤ) : ℚ)).h < 360) ∧
    ((rgbToHsv ((7 : ℤ) : ℚ) ((7 : ℤ) : ℚ) ((7 : ℤ) : ℚ)).s = 0 ∧
     (rgbToHsv ((7 : ℤ) : ℚ) ((7 : ℤ) : ℚ) ((7 : ℤ) : ℚ)).h = 0) :=
  C6_rgbToHsv_props 10 20 30 7 (by norm_num) (by norm_num) (by norm_num)
    (by norm_num) (by norm_num) (by norm_num) (by norm_num) (by norm_num)

/-- Counterexample to C7 as stated: at (h, s) = (2, 1) the composition
returns hue 20, which is 18 away from the input hue — far outside the ±1
tolerance the claim asserts for all s > 0. -/
theorem C7_counterexample :
    (roundTripHS ((2 : ℕ) : ℚ) 1).h = 20 ∧
    (((roundTripHS ((2 : ℕ) : ℚ) 1).h - ((2 : ℕ) : ℤ)).natAbs ≤ 1 → False) := by
  constructor
  · decide
  · decide

set_option maxHeartbeats 4000000 in
/-- Claim C7 (amended): at full saturation (s = 100) the composition
`rgbToHsv ∘ hsvToRgb` reproduces the hue within ±1 and the saturation
exactly, for every integer hue in [0, 360); at s = 0 the composition is
total and returns hue 0 and saturation 0 (it does not crash); for
intermediate s the hue error can exceed 1 (see the counterexample at
(2, 1)). -/
theorem C7_roundtrip_full_saturation (h : ℕ) (hh : h < 360) :
    ((roundTripHS (h : ℚ) 100).h - (h : ℤ)).natAbs ≤ 1 ∧
    (roundTripHS (h : ℚ) 100).s = 100 ∧
    (roundTripHS (h : ℚ) 0).h = 0 ∧
    (roundTripHS (h : ℚ) 0).s = 0 := by
  revert h
  decide

/-- Witness for C7 at h = 2. -/
theorem C7_roundtrip_full_saturation_witness :
    ((roundTripHS ((2 : ℕ) : ℚ) 100).h - ((2 : ℕ) : ℤ)).natAbs ≤ 1 ∧
    (roundTripHS ((2 : ℕ) : ℚ) 100).s = 100 ∧
    (roundTripHS ((2 : ℕ) : ℚ) 0).h = 0 ∧
    (roundTripHS ((2 : ℕ) : ℚ) 0).s = 0 :=
  C7_roundtrip_full_saturation 2 (by norm_num)

end WLED
